import Mathlib

/-!
# A shallow embedding of the pern-todos service

`src/server/src/index.ts` defines an Express application over a Postgres
connection pool together with a React client component.  The definitions
below transcribe each route handler into a Lean function.  Effects are made
explicit:

* the SQL round trips a handler issues are recorded as a list of `Stmt`
  values, in order;
* the outcome of each round trip is an explicit `Except String` argument
  (`.error msg` models a rejected query whose driver message is `msg`), so
  theorems can quantify over every possible store behaviour;
* `DB`-suffixed wrappers instantiate those outcomes with a concrete model
  of the relational store (`DB`), for claims about state.
-/

namespace PernTodos

/-- The `parseInt` digit accumulation over a list of characters: the
longest leading run of decimal digits, or `none` when there is none
(JavaScript `NaN`). -/
def parseDigits (cs : List Char) : Option Nat :=
  match cs.takeWhile Char.isDigit with
  | [] => none
  | ds => some (ds.foldl (fun a c => a * 10 + (c.toNat - 48)) 0)

/-- JavaScript `parseInt(s)` (radix 10): skip leading whitespace, read an
optional sign and then a decimal-digit run; `none` models `NaN`. -/
def jsParseInt (s : String) : Option Int :=
  match s.data.dropWhile Char.isWhitespace with
  | '-' :: rest => (parseDigits rest).map (fun n => -(n : Int))
  | '+' :: rest => (parseDigits rest).map (fun n => (n : Int))
  | cs => (parseDigits cs).map (fun n => (n : Int))

/-- Models `parseInt(req.query.x as string)` when the query parameter may be
absent: `parseInt(undefined)` is `NaN`. -/
def jsParseIntQ (q : Option String) : Option Int :=
  match q with
  | none => none
  | some s => jsParseInt s

/-- JavaScript `v || d` for a number `v` that may be `NaN`: `NaN` and `0`
are falsy and produce the default. -/
def jsOrDefault (v : Option Int) (d : Int) : Int :=
  match v with
  | none => d
  | some n => if n = 0 then d else n

/-- JavaScript `Math.ceil(a / b)` for integers `a`, `b` with `b ≠ 0`,
i.e. the ceiling of the exact quotient (Lean's `Int` division is
floor division for a positive divisor). -/
def jsCeilDiv (a b : Int) : Int :=
  if 0 ≤ b then -((-a) / b) else -(a / (-b))

/-- JavaScript `String.prototype.trim`. -/
def jsTrim (s : String) : String :=
  ⟨((s.data.dropWhile Char.isWhitespace).reverse.dropWhile Char.isWhitespace).reverse⟩

/-- JavaScript `hay.includes(needle)`: substring test. -/
def strIncludes (hay needle : String) : Bool :=
  hay.data.tails.any (fun t => needle.data.isPrefixOf t)

/-- The Postgres driver message fragment the handlers match on. -/
def relMsg : String := "relation \"todos\" does not exist"

/-- The distinct 500 message `GET /todos` produces for a missing table. -/
def missingTableMsg : String := "The \"todos\" table does not exist in the database."

/-- A row of the `todos` table (columns referenced by the routes the
claims are about; `created_at` is only ever passed through opaquely). -/
structure Row where
  id : Nat
  text : String
  completed : Bool
deriving DecidableEq, Repr

/-- The store: whether the `todos` relation exists, its rows, and the
next `SERIAL` id. -/
structure DB where
  tableExists : Bool
  rows : List Row
  nextId : Nat
deriving DecidableEq, Repr

/-- JSON values, as produced by `res.json(...)`; `nul` also stands for
the empty body produced by `res.json(undefined)`. -/
inductive Json where
  | nul : Json
  | bool : Bool → Json
  | num : Int → Json
  | str : String → Json
  | arr : List Json → Json
  | obj : List (String × Json) → Json
deriving Repr

/-- A row serialised by `res.json`. -/
def rowJson (r : Row) : Json :=
  .obj [("id", .num r.id), ("text", .str r.text), ("completed", .bool r.completed)]

/-- A `NaN` serialises as `null`; a number as itself. -/
def jsonNumOpt (v : Option Int) : Json :=
  match v with
  | some n => .num n
  | none => .nul

/-- An HTTP response: status code and JSON body. -/
structure HttpResponse where
  status : Nat
  body : Json
deriving Repr

/-- Plain `res.json(x)` (default status 200). -/
def ok200 (body : Json) : HttpResponse := ⟨200, body⟩

/-- The error response `res.status(500).json({ error: msg })`. -/
def err500 (msg : String) : HttpResponse := ⟨500, .obj [("error", .str msg)]⟩

/-- The SQL statements the handlers issue, one constructor per distinct
statement text in `index.ts` (parameters made explicit). -/
inductive Stmt where
  | selectAll : Stmt
  | insertTodo : String → Stmt
  | createTable : List (String × String) → Stmt
  | updateText : Nat → String → Stmt
  | deleteFrom : Nat → Stmt
  | selectPage : Int → Int → Stmt
  | countAll : Stmt
  | searchLike : String → Stmt
  | selectRange : Option String → Option String → Stmt
  | updateComplete : Nat → Stmt
deriving DecidableEq, Repr

/-- The column list of
`CREATE TABLE todos (id SERIAL PRIMARY KEY, text VARCHAR(255) NOT NULL)`. -/
def createTableCols : List (String × String) :=
  [("id", "SERIAL PRIMARY KEY"), ("text", "VARCHAR(255) NOT NULL")]

/-- Route `GET /` — liveness message, no SQL. -/
def rootH : List Stmt × HttpResponse :=
  ([], ok200 (.obj [("message", .str "Hello World!")]))

/-- Route `GET /todos`: `SELECT * FROM todos`; on failure, classify the error by
substring-matching the driver message. -/
def getTodosH (res : Except String (List Row)) : List Stmt × HttpResponse :=
  ([.selectAll],
   match res with
   | .ok rows => ok200 (.arr (rows.map rowJson))
   | .error msg =>
     if strIncludes msg relMsg then err500 missingTableMsg else err500 msg)

/-- Route `POST /todos`: insert; on a missing-table error, create the table and
retry the insert once inside a second `try`.  `ins1`, `cr`, `ins2` are the
outcomes of the three possible round trips. -/
def postTodosH (text : String) (ins1 : Except String Row)
    (cr : Except String Unit) (ins2 : Except String Row) :
    List Stmt × HttpResponse :=
  match ins1 with
  | .ok r => ([.insertTodo text], ok200 (rowJson r))
  | .error msg =>
    if strIncludes msg relMsg then
      match cr with
      | .error cmsg =>
        ([.insertTodo text, .createTable createTableCols], err500 cmsg)
      | .ok _ =>
        match ins2 with
        | .ok r =>
          ([.insertTodo text, .createTable createTableCols, .insertTodo text],
           ok200 (rowJson r))
        | .error m2 =>
          ([.insertTodo text, .createTable createTableCols, .insertTodo text],
           err500 m2)
    else ([.insertTodo text], err500 msg)

/-- Route `PUT /todos/:id`: `UPDATE ... RETURNING *`; responds with
`result.rows[0]` (`undefined`, i.e. `nul`, when no row matched). -/
def putTodoH (id : Nat) (text : String) (res : Except String (List Row)) :
    List Stmt × HttpResponse :=
  ([.updateText id text],
   match res with
   | .ok rows =>
     ok200 (match rows.head? with | some r => rowJson r | none => .nul)
   | .error msg => err500 msg)

/-- Route `DELETE /todos/:id`: one `DELETE` statement; a fixed success body. -/
def deleteTodoH (id : Nat) (res : Except String Unit) :
    List Stmt × HttpResponse :=
  ([.deleteFrom id],
   match res with
   | .ok _ => ok200 (.obj [("message", .str "Todo deleted")])
   | .error msg => err500 msg)

/-- Route `GET /todos/paginated`: default the parameters, compute the offset,
run the windowed select and the count. -/
def paginatedH (pageQ limitQ : Option String) (sel : Except String (List Row))
    (cnt : Except String String) : List Stmt × HttpResponse :=
  let page := jsOrDefault (jsParseIntQ pageQ) 1
  let limit := jsOrDefault (jsParseIntQ limitQ) 10
  let offset := (page - 1) * limit
  match sel with
  | .error msg => ([.selectPage limit offset], err500 msg)
  | .ok rows =>
    match cnt with
    | .error msg => ([.selectPage limit offset, .countAll], err500 msg)
    | .ok c =>
      ([.selectPage limit offset, .countAll],
       ok200 (.obj
         [("todos", .arr (rows.map rowJson)),
          ("currentPage", .num page),
          ("totalPages", jsonNumOpt ((jsParseInt c).map (fun t => jsCeilDiv t limit))),
          ("totalCount", jsonNumOpt (jsParseInt c))]))

/-- The `ILIKE` pattern `` `%${searchText}%` `` built by
`GET /todos/search`; an absent `q` stringifies to `"undefined"`. -/
def searchPattern (q : Option String) : String :=
  "%" ++ (match q with | some s => s | none => "undefined") ++ "%"

/-- Route `GET /todos/search`. -/
def searchH (q : Option String) (res : Except String (List Row)) :
    List Stmt × HttpResponse :=
  ([.searchLike (searchPattern q)],
   match res with
   | .ok rows => ok200 (.arr (rows.map rowJson))
   | .error msg => err500 msg)

/-- Route `GET /todos/date-range`. -/
def dateRangeH (startQ endQ : Option String) (res : Except String (List Row)) :
    List Stmt × HttpResponse :=
  ([.selectRange startQ endQ],
   match res with
   | .ok rows => ok200 (.arr (rows.map rowJson))
   | .error msg => err500 msg)

/-- Route `GET /todos/count`: the driver returns the count as a string, the
handler applies `parseInt`. -/
def countTodosH (res : Except String String) : List Stmt × HttpResponse :=
  ([.countAll],
   match res with
   | .ok c => ok200 (.obj [("count", jsonNumOpt (jsParseInt c))])
   | .error msg => err500 msg)

/-- Route `PATCH /todos/:id/complete`: `UPDATE todos SET completed = TRUE
WHERE id = $1 RETURNING *`; responds with `result.rows[0]`. -/
def patchCompleteH (id : Nat) (res : Except String (List Row)) :
    List Stmt × HttpResponse :=
  ([.updateComplete id],
   match res with
   | .ok rows =>
     ok200 (match rows.head? with | some r => rowJson r | none => .nul)
   | .error msg => err500 msg)

/-! ## A concrete model of the store

Postgres semantics for the statements the state-dependent claims need.
A query against a missing relation is rejected with the driver message
the handlers match on. -/

/-- Statement `DELETE FROM todos WHERE id = $1`: deleting rows that do not exist
succeeds and deletes nothing. -/
def dbDelete (db : DB) (id : Nat) : Except String DB :=
  if db.tableExists then
    .ok { db with rows := db.rows.filter (fun r => !(r.id == id)) }
  else .error relMsg

/-- The update `completed = TRUE` applied to the rows selected by `WHERE id = $1`. -/
def setCompleted (id : Nat) (r : Row) : Row :=
  if r.id == id then { r with completed := true } else r

/-- Statement `UPDATE todos SET completed = TRUE WHERE id = $1 RETURNING *`:
the updated table together with the rows the `RETURNING` clause yields. -/
def dbUpdateComplete (db : DB) (id : Nat) : Except String (List Row × DB) :=
  if db.tableExists then
    let rows := db.rows.map (setCompleted id)
    .ok (rows.filter (fun r => r.id == id), { db with rows := rows })
  else .error relMsg

/-- Does `f` accept some suffix of the list (the list itself and the
empty suffix included)? -/
def anySuffix (f : List Char → Bool) : List Char → Bool
  | [] => f []
  | c :: cs => f (c :: cs) || anySuffix f cs

/-- SQL `LIKE` matching over characters: `%` matches any sequence, `_`
any single character, anything else itself. -/
def likeMatch : List Char → List Char → Bool
  | [], cs => cs.isEmpty
  | p :: ps, cs =>
    if p = '%' then anySuffix (likeMatch ps) cs
    else
      match cs with
      | [] => false
      | c :: cs' => (p = '_' || p = c) && likeMatch ps cs'

/-- Lower-case a string to its character list (for `ILIKE`'s case
folding). -/
def lowerChars (s : String) : List Char := s.data.map Char.toLower

/-- Postgres `text ILIKE pattern`: case-insensitive `LIKE`. -/
def ilike (pat text : String) : Bool :=
  likeMatch (lowerChars pat) (lowerChars text)

/-- Statement `SELECT * FROM todos WHERE text ILIKE $1`. -/
def dbSearch (db : DB) (pat : String) : Except String (List Row) :=
  if db.tableExists then .ok (db.rows.filter (fun r => ilike pat r.text))
  else .error relMsg

/-- Route `DELETE /todos/:id` run against the concrete store. -/
def deleteTodoDB (db : DB) (id : Nat) : (List Stmt × HttpResponse) × DB :=
  match dbDelete db id with
  | .ok db' => (deleteTodoH id (.ok ()), db')
  | .error m => (deleteTodoH id (.error m), db)

/-- Route `PATCH /todos/:id/complete` run against the concrete store. -/
def patchCompleteDB (db : DB) (id : Nat) : (List Stmt × HttpResponse) × DB :=
  match dbUpdateComplete db id with
  | .ok (ret, db') => (patchCompleteH id (.ok ret), db')
  | .error m => (patchCompleteH id (.error m), db)

/-- Route `GET /todos/search` run against the concrete store (read-only). -/
def searchDB (db : DB) (q : Option String) : (List Stmt × HttpResponse) × DB :=
  match dbSearch db (searchPattern q) with
  | .ok rows => (searchH q (.ok rows), db)
  | .error m => (searchH q (.error m), db)

/-! ## The client component -/

/-- The client's `Todo` interface. -/
structure ClientTodo where
  id : Int
  text : String
deriving DecidableEq, Repr

/-- The `TodoList` component's local state: the `todos` list and the
controlled `input` field. -/
structure ClientState where
  todos : List ClientTodo
  input : String
deriving DecidableEq, Repr

/-- A network request the client sends. -/
inductive ClientReq where
  | post : String → ClientReq
deriving DecidableEq, Repr

/-- The client's `addTodo`: guarded by the truthiness of
`input.trim()`; `newTodo` is the object parsed from the server's
response. -/
def addTodo (st : ClientState) (newTodo : ClientTodo) :
    List ClientReq × ClientState :=
  if jsTrim st.input = "" then ([], st)
  else ([.post (jsTrim st.input)],
        { todos := st.todos ++ [newTodo], input := "" })

/-- The error contract of §6: a response is either a 200, or a 500 whose
body is exactly `{error: msg}`; in particular no 4xx ever occurs. -/
def errShape (resp : HttpResponse) : Prop :=
  (resp.status = 200 ∨ resp.status = 500) ∧
  (resp.status ≠ 200 →
    resp.status = 500 ∧ ∃ m, resp.body = Json.obj [("error", Json.str m)])

/-! ## Theorems -/

theorem errShape_ok200 (b : Json) : errShape (ok200 b) :=
  ⟨Or.inl rfl, fun h => absurd rfl h⟩

theorem errShape_err500 (m : String) : errShape (err500 m) :=
  ⟨Or.inr rfl, fun _ => ⟨rfl, m, rfl⟩⟩

/-- The map `setCompleted` is idempotent on a row. -/
theorem setCompleted_idem (id : Nat) (r : Row) :
    setCompleted id (setCompleted id r) = setCompleted id r := by
  unfold setCompleted
  by_cases h : r.id == id <;> simp [h]

/-- Unfolding `PATCH /todos/:id/complete` when the table exists. -/
theorem patchCompleteDB_eq (db : DB) (id : Nat) (h : db.tableExists = true) :
    patchCompleteDB db id =
      (patchCompleteH id
        (.ok ((db.rows.map (setCompleted id)).filter (fun r => r.id == id))),
       { db with rows := db.rows.map (setCompleted id) }) := by
  unfold patchCompleteDB dbUpdateComplete
  simp [h]

/-- C1: for every id (existing or not) and every state in which the
`todos` relation exists, `DELETE /todos/:id` responds with the success
body `{message: "Todo deleted"}` (so a nonexistent id yields the very
same success shape as an existing one), and performing the delete twice
leaves the same state, statements and response as performing it once. -/
theorem delete_success_idempotent (db : DB) (id : Nat)
    (h : db.tableExists = true) :
    (deleteTodoDB db id).1.2 = ok200 (.obj [("message", .str "Todo deleted")]) ∧
    deleteTodoDB (deleteTodoDB db id).2 id = deleteTodoDB db id := by
  unfold deleteTodoDB dbDelete
  simp only [h, if_true]
  refine ⟨rfl, ?_⟩
  simp [List.filter_filter]

/-- Witness for `delete_success_idempotent` at a concrete store. -/
theorem delete_success_idempotent_witness :
    (deleteTodoDB ⟨true, [⟨1, "a", false⟩], 2⟩ 1).1.2 =
      ok200 (.obj [("message", .str "Todo deleted")]) ∧
    deleteTodoDB (deleteTodoDB ⟨true, [⟨1, "a", false⟩], 2⟩ 1).2 1 =
      deleteTodoDB ⟨true, [⟨1, "a", false⟩], 2⟩ 1 :=
  delete_success_idempotent ⟨true, [⟨1, "a", false⟩], 2⟩ 1 rfl

/-- C10: `DELETE /todos/:id` issues exactly one statement (the `DELETE`,
no other write); every row whose id differs survives, nothing new
appears, the table flag and the id counter are untouched; when the table
exists the resulting rows are exactly the old rows whose id differs, and
— ids being unique, as `SERIAL` guarantees — at most a single row is
removed. -/
theorem delete_frame (db : DB) (id : Nat) :
    (deleteTodoDB db id).1.1 = [Stmt.deleteFrom id] ∧
    (∀ r ∈ db.rows, r.id ≠ id → r ∈ (deleteTodoDB db id).2.rows) ∧
    (∀ r ∈ (deleteTodoDB db id).2.rows, r ∈ db.rows) ∧
    (deleteTodoDB db id).2.tableExists = db.tableExists ∧
    (deleteTodoDB db id).2.nextId = db.nextId ∧
    (db.tableExists = true →
      (deleteTodoDB db id).2.rows = db.rows.filter (fun r => !(r.id == id))) ∧
    ((db.rows.map Row.id).Nodup →
      ∀ r s, r ∈ db.rows → r ∉ (deleteTodoDB db id).2.rows →
        s ∈ db.rows → s ∉ (deleteTodoDB db id).2.rows → r = s) := by
  cases htb : db.tableExists with
  | false =>
    have e : deleteTodoDB db id = (deleteTodoH id (.error relMsg), db) := by
      unfold deleteTodoDB dbDelete
      simp [htb]
    rw [e]
    refine ⟨rfl, fun r hr _ => hr, fun r hr => hr, htb, rfl,
      fun hc => Bool.noConfusion hc, ?_⟩
    intro _ r s hr hrn _ _
    exact absurd hr hrn
  | true =>
    have e : deleteTodoDB db id =
        (deleteTodoH id (.ok ()),
         { db with rows := db.rows.filter (fun r => !(r.id == id)) }) := by
      unfold deleteTodoDB dbDelete
      simp [htb]
    rw [e]
    refine ⟨rfl, ?_, ?_, htb, rfl, fun _ => rfl, ?_⟩
    · intro r hr hne
      simp [List.mem_filter, hr, hne]
    · intro r hr
      exact (List.mem_filter.mp hr).1
    · intro hnd r s hr hrn hs hsn
      simp only [List.mem_filter, not_and, Bool.not_eq_true', Bool.not_eq_false,
        beq_iff_eq] at hrn hsn
      exact List.inj_on_of_nodup_map hnd hr hs ((hrn hr).trans (hsn hs).symm)

/-- Witness for `delete_frame` at a concrete store. -/
theorem delete_frame_witness :
    (deleteTodoDB ⟨true, [⟨1, "a", false⟩, ⟨2, "b", true⟩], 3⟩ 1).1.1 =
      [Stmt.deleteFrom 1] ∧
    (deleteTodoDB ⟨true, [⟨1, "a", false⟩, ⟨2, "b", true⟩], 3⟩ 1).2.rows =
      [⟨2, "b", true⟩] := by
  have h := delete_frame ⟨true, [⟨1, "a", false⟩, ⟨2, "b", true⟩], 3⟩ 1
  exact ⟨h.1, by rw [h.2.2.2.2.2.1 rfl]; rfl⟩

/-- C1, counterexample to the unrestricted claim: in the state where the
`todos` relation does not exist, `DELETE /todos/:id` answers 500 with
the driver message, not the success body. -/
theorem delete_missing_table_counterexample :
    (deleteTodoDB ⟨false, [], 1⟩ 1).1.2 = err500 relMsg ∧
    (deleteTodoDB ⟨false, [], 1⟩ 1).1.2 ≠
      ok200 (.obj [("message", .str "Todo deleted")]) := by
  refine ⟨rfl, fun h => ?_⟩
  rw [show (deleteTodoDB ⟨false, [], 1⟩ 1).1.2 = err500 relMsg from rfl] at h
  have := congrArg (fun r : HttpResponse => r.status) h
  simp [err500, ok200] at this

/-- C5: when `GET /todos` fails, the handler substring-matches the driver
message against the missing-relation phrase: a match yields the distinct
500 message that the `todos` table does not exist, any other message is
surfaced raw, and the status is 500 either way. -/
theorem getTodos_error_classified (msg : String) :
    (strIncludes msg relMsg = true →
      (getTodosH (.error msg)).2 = err500 missingTableMsg) ∧
    (strIncludes msg relMsg = false →
      (getTodosH (.error msg)).2 = err500 msg) ∧
    (getTodosH (.error msg)).2.status = 500 := by
  refine ⟨fun h => ?_, fun h => ?_, ?_⟩
  · simp [getTodosH, h]
  · simp [getTodosH, h]
  · unfold getTodosH
    dsimp only
    split <;> rfl

/-- Witness for `getTodos_error_classified`: a driver message containing
the phrase, and one that does not. -/
theorem getTodos_error_classified_witness :
    (getTodosH (.error relMsg)).2 = err500 missingTableMsg ∧
    (getTodosH (.error "connection refused")).2 = err500 "connection refused" :=
  ⟨(getTodos_error_classified relMsg).1 (by decide),
   (getTodos_error_classified "connection refused").2.1 (by decide)⟩

/-- C8: for an existing id (table present), `PATCH /todos/:id/complete`
responds with the updated row, which carries `completed = true` and the
requested id; a second `PATCH` on the same id returns the same
statements, response and state as the first. -/
theorem patch_complete_idempotent (db : DB) (id : Nat)
    (h : db.tableExists = true) (r : Row) (hr : r ∈ db.rows)
    (hid : r.id = id) :
    (∃ r', (patchCompleteDB db id).1.2 = ok200 (rowJson r') ∧
        r'.completed = true ∧ r'.id = id) ∧
    patchCompleteDB (patchCompleteDB db id).2 id = patchCompleteDB db id := by
  have hcomp : setCompleted id ∘ setCompleted id = setCompleted id :=
    funext (setCompleted_idem id)
  have e1 := patchCompleteDB_eq db id h
  constructor
  · rw [e1]
    have hmem : setCompleted id r ∈
        (db.rows.map (setCompleted id)).filter (fun s => s.id == id) := by
      refine List.mem_filter.mpr ⟨List.mem_map_of_mem _ hr, ?_⟩
      simp [setCompleted, hid]
    obtain ⟨r0, l0, hh⟩ :
        ∃ r0 l0, (db.rows.map (setCompleted id)).filter (fun s => s.id == id)
          = r0 :: l0 := by
      cases hf : (db.rows.map (setCompleted id)).filter (fun s => s.id == id) with
      | nil => rw [hf] at hmem; cases hmem
      | cons a t => exact ⟨a, t, rfl⟩
    have hr0 : r0 ∈
        (db.rows.map (setCompleted id)).filter (fun s => s.id == id) := by
      rw [hh]; exact List.mem_cons_self r0 l0
    have hid0 : r0.id = id := beq_iff_eq.mp (List.mem_filter.mp hr0).2
    obtain ⟨r1, hr1, hs⟩ := List.mem_map.mp (List.mem_filter.mp hr0).1
    have hc0 : r0.completed = true := by
      by_cases hb : r1.id = id
      · rw [← hs]; simp [setCompleted, hb]
      · exfalso
        apply hb
        rw [← hs] at hid0
        simp only [setCompleted, beq_iff_eq, if_neg hb] at hid0
        exact hid0
    exact ⟨r0, by simp [patchCompleteH, hh], hc0, hid0⟩
  · have e2 := patchCompleteDB_eq { db with rows := db.rows.map (setCompleted id) } id h
    rw [e1, e2]
    simp [List.map_map, hcomp]

/-- Witness for `patch_complete_idempotent` at a concrete store. -/
theorem patch_complete_idempotent_witness :
    (∃ r', (patchCompleteDB ⟨true, [⟨1, "a", false⟩], 2⟩ 1).1.2 =
        ok200 (rowJson r') ∧ r'.completed = true ∧ r'.id = 1) ∧
    patchCompleteDB (patchCompleteDB ⟨true, [⟨1, "a", false⟩], 2⟩ 1).2 1 =
      patchCompleteDB ⟨true, [⟨1, "a", false⟩], 2⟩ 1 :=
  patch_complete_idempotent ⟨true, [⟨1, "a", false⟩], 2⟩ 1 rfl
    ⟨1, "a", false⟩ (by decide) rfl

/-- C4: the `POST /todos` fallback.  The `CREATE TABLE` statement carries
only the `id` and `text` columns (no `completed`, no `created_at`); on a
missing-table insert error the handler creates the table and retries the
insert exactly once (the trace shows two inserts), answering with the
created row on retry success and a 500 on retry or create failure; any
other initial error is answered 500 with no `CREATE TABLE` attempted. -/
theorem post_self_heal (text : String) :
    (createTableCols.map Prod.fst = ["id", "text"] ∧
     ∀ ty, ("completed", ty) ∉ createTableCols ∧
       ("created_at", ty) ∉ createTableCols) ∧
    (∀ (r : Row) cr ins2,
      postTodosH text (.ok r) cr ins2 =
        ([.insertTodo text], ok200 (rowJson r))) ∧
    (∀ msg (r2 : Row), strIncludes msg relMsg = true →
      postTodosH text (.error msg) (.ok ()) (.ok r2) =
        ([.insertTodo text, .createTable createTableCols, .insertTodo text],
         ok200 (rowJson r2))) ∧
    (∀ msg m2, strIncludes msg relMsg = true →
      postTodosH text (.error msg) (.ok ()) (.error m2) =
        ([.insertTodo text, .createTable createTableCols, .insertTodo text],
         err500 m2)) ∧
    (∀ msg cmsg ins2, strIncludes msg relMsg = true →
      postTodosH text (.error msg) (.error cmsg) ins2 =
        ([.insertTodo text, .createTable createTableCols], err500 cmsg)) ∧
    (∀ msg cr ins2, strIncludes msg relMsg = false →
      postTodosH text (.error msg) cr ins2 =
        ([.insertTodo text], err500 msg)) := by
  refine ⟨⟨rfl, fun ty => by simp [createTableCols]⟩, ?_, ?_, ?_, ?_, ?_⟩
  · intro r cr ins2; rfl
  · intro msg r2 hm; simp [postTodosH, hm]
  · intro msg m2 hm; simp [postTodosH, hm]
  · intro msg cmsg ins2 hm; simp [postTodosH, hm]
  · intro msg cr ins2 hm; simp [postTodosH, hm]

/-- Witness for `post_self_heal`: the retry path on the real driver
message, and a non-missing-table error. -/
theorem post_self_heal_witness :
    postTodosH "a" (.error relMsg) (.ok ()) (.ok ⟨1, "a", false⟩) =
      ([.insertTodo "a", .createTable createTableCols, .insertTodo "a"],
       ok200 (rowJson ⟨1, "a", false⟩)) ∧
    postTodosH "a" (.error "duplicate key") (.ok ()) (.ok ⟨1, "a", false⟩) =
      ([.insertTodo "a"], err500 "duplicate key") :=
  ⟨(post_self_heal "a").2.2.1 relMsg ⟨1, "a", false⟩ (by decide),
   (post_self_heal "a").2.2.2.2.2 "duplicate key" (.ok ()) (.ok ⟨1, "a", false⟩)
     (by decide)⟩

/-- C7: for every route and every outcome of its queries, the response is
either a 200 or a 500 whose body is exactly `{error: msg}`; no handler
ever produces a 4xx status. -/
theorem all_routes_error_shape :
    errShape rootH.2 ∧
    (∀ res, errShape (getTodosH res).2) ∧
    (∀ text ins1 cr ins2, errShape (postTodosH text ins1 cr ins2).2) ∧
    (∀ id text res, errShape (putTodoH id text res).2) ∧
    (∀ id res, errShape (deleteTodoH id res).2) ∧
    (∀ pageQ limitQ sel cnt, errShape (paginatedH pageQ limitQ sel cnt).2) ∧
    (∀ q res, errShape (searchH q res).2) ∧
    (∀ s e res, errShape (dateRangeH s e res).2) ∧
    (∀ res, errShape (countTodosH res).2) ∧
    (∀ id res, errShape (patchCompleteH id res).2) := by
  refine ⟨errShape_ok200 _, ?_, ?_, ?_, ?_, ?_, ?_, ?_, ?_, ?_⟩
  · intro res
    cases res with
    | ok rows => exact errShape_ok200 _
    | error msg =>
      dsimp [getTodosH]
      split
      · exact errShape_err500 _
      · exact errShape_err500 _
  · intro text ins1 cr ins2
    cases ins1 with
    | ok r => exact errShape_ok200 _
    | error msg =>
      dsimp [postTodosH]
      split
      · cases cr with
        | ok u =>
          cases ins2 with
          | ok r => exact errShape_ok200 _
          | error m2 => exact errShape_err500 _
        | error cmsg => exact errShape_err500 _
      · exact errShape_err500 _
  · intro id text res
    cases res with
    | ok rows => exact errShape_ok200 _
    | error msg => exact errShape_err500 _
  · intro id res
    cases res with
    | ok u => exact errShape_ok200 _
    | error msg => exact errShape_err500 _
  · intro pageQ limitQ sel cnt
    cases sel with
    | error msg => exact errShape_err500 _
    | ok rows =>
      cases cnt with
      | ok c => exact errShape_ok200 _
      | error msg => exact errShape_err500 _
  · intro q res
    cases res with
    | ok rows => exact errShape_ok200 _
    | error msg => exact errShape_err500 _
  · intro s e res
    cases res with
    | ok rows => exact errShape_ok200 _
    | error msg => exact errShape_err500 _
  · intro res
    cases res with
    | ok c => exact errShape_ok200 _
    | error msg => exact errShape_err500 _
  · intro id res
    cases res with
    | ok rows => exact errShape_ok200 _
    | error msg => exact errShape_err500 _

/-- Witness for `all_routes_error_shape`: a failing delete and a
succeeding search. -/
theorem all_routes_error_shape_witness :
    errShape (deleteTodoH 1 (.error "boom")).2 ∧
    errShape (searchH none (.ok [])).2 :=
  ⟨all_routes_error_shape.2.2.2.2.1 1 (.error "boom"),
   all_routes_error_shape.2.2.2.2.2.2.1 none (.ok [])⟩

/-- C9: the client's add operation sends a `POST` with the trimmed text,
appends the server's object and clears the input exactly when the
trimmed input is non-empty; for an all-whitespace input it sends nothing
and leaves the state untouched. -/
theorem addTodo_spec (st : ClientState) (newTodo : ClientTodo) :
    (jsTrim st.input ≠ "" →
      addTodo st newTodo =
        ([.post (jsTrim st.input)],
         { todos := st.todos ++ [newTodo], input := "" })) ∧
    (jsTrim st.input = "" → addTodo st newTodo = ([], st)) := by
  constructor <;> intro h <;> simp [addTodo, h]

/-- Witness for `addTodo_spec`: a non-empty and an all-whitespace input. -/
theorem addTodo_spec_witness :
    addTodo ⟨[], " hi "⟩ ⟨1, "hi"⟩ = ([.post "hi"], ⟨[⟨1, "hi"⟩], ""⟩) ∧
    addTodo ⟨[⟨1, "hi"⟩], "  "⟩ ⟨2, "x"⟩ = ([], ⟨[⟨1, "hi"⟩], "  "⟩) := by
  constructor
  · have h := (addTodo_spec ⟨[], " hi "⟩ ⟨1, "hi"⟩).1 (by decide)
    have e : jsTrim " hi " = "hi" := by decide
    rw [e] at h
    exact h
  · exact (addTodo_spec ⟨[⟨1, "hi"⟩], "  "⟩ ⟨2, "x"⟩).2 (by decide)

/-- The falsy-default coercion never yields zero when the default is
nonzero. -/
theorem jsOrDefault_ne_zero (v : Option Int) (d : Int) (hd : d ≠ 0) :
    jsOrDefault v d ≠ 0 := by
  cases v with
  | none => exact hd
  | some n =>
    dsimp [jsOrDefault]
    split
    · exact hd
    · assumption

/-- The function `jsCeilDiv` really is the ceiling of the exact rational quotient, for
any nonzero divisor — i.e. it is a faithful model of
`Math.ceil(a / b)`. -/
theorem jsCeilDiv_eq_ceil (a b : Int) (hb : b ≠ 0) :
    jsCeilDiv a b = ⌈(a : ℚ) / (b : ℚ)⌉ := by
  unfold jsCeilDiv
  rcases hb.lt_or_lt with hneg | hpos
  · rw [if_neg (not_le.mpr hneg)]
    obtain ⟨d, hd⟩ : ∃ d : ℕ, -b = (d : ℤ) :=
      ⟨(-b).toNat, (Int.toNat_of_nonneg (by omega)).symm⟩
    have hbq : (b : ℚ) = -((d : ℕ) : ℚ) := by
      have hb' : b = -(d : ℤ) := by omega
      rw [hb']
      push_cast
      ring
    rw [hbq, div_neg, Int.ceil_neg, Rat.floor_intCast_div_natCast, hd]
  · rw [if_pos hpos.le]
    obtain ⟨d, hd⟩ : ∃ d : ℕ, b = (d : ℤ) :=
      ⟨b.toNat, (Int.toNat_of_nonneg hpos.le).symm⟩
    have hx : (a : ℚ) / (b : ℚ) = -(((-a : ℤ) : ℚ) / ((d : ℕ) : ℚ)) := by
      rw [hd]
      push_cast
      ring
    rw [hx, Int.ceil_neg, Rat.floor_intCast_div_natCast, hd]

/-- C2: `GET /todos/paginated` — an absent or unparsable `page` makes the
offset `(1-1)*limit = 0` and an absent or unparsable `limit` sends 10;
in general the windowed select receives the effective limit and the
offset `(page-1)*limit`, and the response reports `currentPage`,
`totalCount`, and `totalPages = ⌈totalCount / limit⌉`. -/
theorem paginated_semantics (pageQ limitQ : Option String)
    (rows : List Row) (c : String) (tc : Int) (hc : jsParseInt c = some tc) :
    (jsParseIntQ pageQ = none →
      (paginatedH pageQ limitQ (.ok rows) (.ok c)).1 =
        [Stmt.selectPage (jsOrDefault (jsParseIntQ limitQ) 10) 0,
         Stmt.countAll]) ∧
    (jsParseIntQ limitQ = none →
      (paginatedH pageQ limitQ (.ok rows) (.ok c)).1 =
        [Stmt.selectPage 10 ((jsOrDefault (jsParseIntQ pageQ) 1 - 1) * 10),
         Stmt.countAll]) ∧
    (paginatedH pageQ limitQ (.ok rows) (.ok c)).1 =
      [Stmt.selectPage (jsOrDefault (jsParseIntQ limitQ) 10)
        ((jsOrDefault (jsParseIntQ pageQ) 1 - 1) *
          jsOrDefault (jsParseIntQ limitQ) 10),
       Stmt.countAll] ∧
    (paginatedH pageQ limitQ (.ok rows) (.ok c)).2 =
      ok200 (.obj
        [("todos", .arr (rows.map rowJson)),
         ("currentPage", .num (jsOrDefault (jsParseIntQ pageQ) 1)),
         ("totalPages",
          .num ⌈(tc : ℚ) / ((jsOrDefault (jsParseIntQ limitQ) 10 : ℤ) : ℚ)⌉),
         ("totalCount", .num tc)]) := by
  have hL : jsOrDefault (jsParseIntQ limitQ) 10 ≠ 0 :=
    jsOrDefault_ne_zero _ _ (by norm_num)
  have hceil := jsCeilDiv_eq_ceil tc _ hL
  refine ⟨?_, ?_, ?_, ?_⟩
  · intro hp
    simp [paginatedH, hp, jsOrDefault]
  · intro hl
    simp [paginatedH, hl, jsOrDefault]
  · simp [paginatedH]
  · simp [paginatedH, hc, hceil, jsonNumOpt]

/-- Witness for `paginated_semantics`: absent `page`, unparsable `limit`,
store counting 5 rows. -/
theorem paginated_semantics_witness :
    (paginatedH none (some "abc") (.ok []) (.ok "5")).1 =
      [Stmt.selectPage 10 0, Stmt.countAll] := by
  have h := (paginated_semantics none (some "abc") [] "5" 5 (by decide)).1 rfl
  have e : jsOrDefault (jsParseIntQ (some "abc")) 10 = 10 := by decide
  rw [e] at h
  exact h

/-- C3, counterexample: a `limit` of `0` is NOT passed through to the
store — `0 || 10` is falsy, so the store receives limit 10. -/
theorem paginated_zero_counterexample :
    (paginatedH none (some "0") (.ok []) (.ok "0")).1 =
      [Stmt.selectPage 10 0, Stmt.countAll] ∧
    (paginatedH none (some "0") (.ok []) (.ok "0")).1 ≠
      [Stmt.selectPage 0 0, Stmt.countAll] := by decide

/-- C3, amended: negative `page` and `limit` are kept verbatim and reach
the store (inside the offset arithmetic for `page`), zero values are
replaced by the defaults 1 and 10 through the falsy coercion, and in no
case does the handler reject the parameters or answer with an error of
its own — it always issues the windowed select and answers 200 when the
store succeeds. -/
theorem paginated_negatives_passthrough (pageQ limitQ : Option String)
    (rows : List Row) (c : String) (np nl : Int) :
    (jsParseIntQ pageQ = some np → np < 0 →
      jsOrDefault (jsParseIntQ pageQ) 1 = np) ∧
    (jsParseIntQ limitQ = some nl → nl < 0 →
      jsOrDefault (jsParseIntQ limitQ) 10 = nl) ∧
    (jsParseIntQ pageQ = some np → jsParseIntQ limitQ = some nl →
      np < 0 → nl < 0 →
      (paginatedH pageQ limitQ (.ok rows) (.ok c)).1 =
        [Stmt.selectPage nl ((np - 1) * nl), Stmt.countAll]) ∧
    (jsParseIntQ pageQ = some 0 → jsOrDefault (jsParseIntQ pageQ) 1 = 1) ∧
    (jsParseIntQ limitQ = some 0 → jsOrDefault (jsParseIntQ limitQ) 10 = 10) ∧
    (∀ sel cnt, ((paginatedH pageQ limitQ sel cnt).1).head? =
      some (Stmt.selectPage (jsOrDefault (jsParseIntQ limitQ) 10)
        ((jsOrDefault (jsParseIntQ pageQ) 1 - 1) *
          jsOrDefault (jsParseIntQ limitQ) 10))) ∧
    (paginatedH pageQ limitQ (.ok rows) (.ok c)).2.status = 200 := by
  refine ⟨?_, ?_, ?_, ?_, ?_, ?_, ?_⟩
  · intro h hlt
    simp [jsOrDefault, h, hlt.ne]
  · intro h hlt
    simp [jsOrDefault, h, hlt.ne]
  · intro hp hl hpn hln
    simp [paginatedH, jsOrDefault, hp, hl, hpn.ne, hln.ne]
  · intro h
    simp [jsOrDefault, h]
  · intro h
    simp [jsOrDefault, h]
  · intro sel cnt
    cases sel with
    | error m => rfl
    | ok rows2 => cases cnt <;> rfl
  · rfl

/-- Witness for `paginated_negatives_passthrough`: `page=-2`, `limit=-5`
reach the store as limit `-5`, offset `(-2-1)*(-5) = 15`. -/
theorem paginated_negatives_passthrough_witness :
    (paginatedH (some "-2") (some "-5") (.ok []) (.ok "0")).1 =
      [Stmt.selectPage (-5) 15, Stmt.countAll] := by
  have h := (paginated_negatives_passthrough (some "-2") (some "-5") [] "0"
      (-2) (-5)).2.2.1 (by decide) (by decide) (by decide) (by decide)
  rw [show ((-2 : ℤ) - 1) * (-5) = 15 by norm_num] at h
  exact h

/-- The test `anySuffix f cs` accepts exactly when some suffix of `cs` does. -/
theorem anySuffix_iff (f : List Char → Bool) (cs : List Char) :
    anySuffix f cs = true ↔ ∃ t, t <:+ cs ∧ f t = true := by
  induction cs with
  | nil =>
    constructor
    · intro h
      exact ⟨[], List.nil_suffix, h⟩
    · rintro ⟨t, ht, hf⟩
      rw [List.suffix_nil.mp ht] at hf
      exact hf
  | cons c cs ih =>
    simp only [anySuffix, Bool.or_eq_true, ih]
    constructor
    · rintro (h | ⟨t, ht, hf⟩)
      · exact ⟨c :: cs, List.suffix_refl _, h⟩
      · exact ⟨t, ht.trans (List.suffix_cons c cs), hf⟩
    · rintro ⟨t, ht, hf⟩
      rcases List.suffix_cons_iff.mp ht with h1 | h2
      · exact Or.inl (h1 ▸ hf)
      · exact Or.inr ⟨t, h2, hf⟩

/-- A wildcard-free pattern followed by `%` matches exactly the lists it
is a prefix of. -/
theorem likeMatch_lit_percent (p : List Char) :
    ∀ cs, '%' ∉ p → '_' ∉ p →
      (likeMatch (p ++ ['%']) cs = true ↔ p <+: cs) := by
  induction p with
  | nil =>
    intro cs _ _
    rw [List.nil_append,
      show likeMatch ['%'] cs = anySuffix (likeMatch []) cs from rfl,
      anySuffix_iff]
    constructor
    · intro _
      exact List.nil_prefix
    · intro _
      exact ⟨[], List.nil_suffix, rfl⟩
  | cons a p ih =>
    intro cs hp1 hp2
    have ha1 : a ≠ '%' := fun h => hp1 (by rw [← h]; exact List.mem_cons_self a p)
    have ha2 : a ≠ '_' := fun h => hp2 (by rw [← h]; exact List.mem_cons_self a p)
    have hp1' : '%' ∉ p := fun h => hp1 (List.mem_cons_of_mem a h)
    have hp2' : '_' ∉ p := fun h => hp2 (List.mem_cons_of_mem a h)
    cases cs with
    | nil =>
      rw [show likeMatch ((a :: p) ++ ['%']) [] = false from by
        dsimp only [List.cons_append, likeMatch]; rw [if_neg ha1]]
      simp
    | cons c cs' =>
      dsimp only [List.cons_append, likeMatch]
      rw [if_neg ha1]
      simp only [Bool.and_eq_true, Bool.or_eq_true, decide_eq_true_eq,
        List.cons_prefix_cons, ha2, false_or]
      exact and_congr_right fun _ => ih cs' hp1' hp2'

/-- Pattern `%p%` (for wildcard-free `p`) matches exactly the lists containing
`p` as a contiguous substring. -/
theorem likeMatch_contains (p cs : List Char) (hp1 : '%' ∉ p)
    (hp2 : '_' ∉ p) :
    likeMatch ('%' :: (p ++ ['%'])) cs = true ↔ p <:+: cs := by
  rw [show likeMatch ('%' :: (p ++ ['%'])) cs
        = anySuffix (likeMatch (p ++ ['%'])) cs from rfl,
    anySuffix_iff]
  constructor
  · rintro ⟨t, ht, hf⟩
    exact List.infix_iff_prefix_suffix.mpr
      ⟨t, (likeMatch_lit_percent p t hp1 hp2).mp hf, ht⟩
  · intro h
    rcases List.infix_iff_prefix_suffix.mp h with ⟨t, hpre, hsuf⟩
    exact ⟨t, hsuf, (likeMatch_lit_percent p t hp1 hp2).mpr hpre⟩

/-- Lower-casing the `%q%` pattern keeps the two `%` and lower-cases
`q`. -/
theorem lowerChars_searchPattern (s : String) :
    lowerChars (searchPattern (some s)) = '%' :: (lowerChars s ++ ['%']) := by
  have h : Char.toLower '%' = '%' := by decide
  unfold searchPattern lowerChars
  rw [String.data_append, String.data_append]
  simp [h]

/-- C6, counterexample: with `q` present but empty the handler builds the
pattern `%%`, not `%undefined%`. -/
theorem search_empty_pattern_counterexample :
    searchPattern (some "") ≠ "%undefined%" := by decide

/-- C6, amended: `GET /todos/search?q` returns exactly the rows whose
lower-cased text contains the lower-cased `q` as a substring
(case-insensitive substring match, for `q` free of the SQL wildcard
characters); an absent `q` builds the pattern `%undefined%`, while an
empty-string `q` builds `%%`. -/
theorem search_semantics (db : DB) (h : db.tableExists = true) (s : String)
    (hp1 : '%' ∉ lowerChars s) (hp2 : '_' ∉ lowerChars s) :
    (∃ found : List Row,
      (searchDB db (some s)).1.2 = ok200 (.arr (found.map rowJson)) ∧
      ∀ r : Row, r ∈ found ↔ r ∈ db.rows ∧
        lowerChars s <:+: lowerChars r.text) ∧
    searchPattern none = "%undefined%" ∧
    searchPattern (some "") = "%%" := by
  refine ⟨?_, rfl, rfl⟩
  have e : dbSearch db (searchPattern (some s)) =
      .ok (db.rows.filter (fun r => ilike (searchPattern (some s)) r.text)) := by
    unfold dbSearch
    rw [if_pos h]
  refine ⟨db.rows.filter (fun r => ilike (searchPattern (some s)) r.text),
    ?_, ?_⟩
  · unfold searchDB
    rw [e]
    rfl
  · intro r
    have hi : ilike (searchPattern (some s)) r.text = true ↔
        lowerChars s <:+: lowerChars r.text := by
      unfold ilike
      rw [lowerChars_searchPattern]
      exact likeMatch_contains _ _ hp1 hp2
    rw [List.mem_filter, hi]

/-- Witness for `search_semantics`: the spec's example — a store holding
`"Buy Milk"`, queried with `q=milk`. -/
theorem search_semantics_witness :
    ∃ found : List Row,
      (searchDB ⟨true, [⟨1, "Buy Milk", false⟩], 2⟩ (some "milk")).1.2 =
        ok200 (.arr (found.map rowJson)) ∧
      ∀ r : Row, r ∈ found ↔ r ∈ [Row.mk 1 "Buy Milk" false] ∧
        lowerChars "milk" <:+: lowerChars r.text :=
  (search_semantics ⟨true, [⟨1, "Buy Milk", false⟩], 2⟩ rfl "milk"
    (by decide) (by decide)).1

end PernTodos
